import Mathlib

/-!
# Verification of the Incident Orchestration State Machine and Confidence Protocol

Shallow embedding of the incident-orchestration core of the repository:

* `src/src/state/redis.js` — `RedisStateManager` (in-memory fallback mode: the
  `useMemory` branch of every method; the Redis branch differs only in the
  backing transport and TTLs, which are not modelled).
* `src/unnamed/part_011` — `Orchestrator` (phase handlers `processHypothesis`,
  `synthesizeRemediation`, `executeRemediation`, `verifyRemediation`,
  `requestHumanApproval`, and `evaluateConfidence`).
* `src/unnamed/part_003` — `EnhancedOrchestrator.evaluateConfidenceEnhanced`.
* `src/src/config/index.js` — the `config.confidence` block and
  `SlackWebhookHandler.handleApproval`.

JavaScript values stored in incident records are modelled by `JValue`
(null and undefined are both modelled as `JValue.null`: the code never
distinguishes them — it only tests truthiness and key presence).
JS objects are association lists with last-write-wins insertion; numbers are
rationals (no NaN: every numeric field the orchestrator stores is produced
from parsed integers or `maxScore * 100`).  Timestamps
(`new Date().toISOString()`) are modelled by an explicit `now : String`
argument threaded into each operation.
-/

/-! ## Association lists (used for both JS objects and the key/value store) -/

section AssocList

variable {κ ν : Type} [DecidableEq κ]

/-- First-match lookup in an association list. -/
def alGet : List (κ × ν) → κ → Option ν
  | [], _ => none
  | (k', v) :: rest, k => if k' = k then some v else alGet rest k

/-- Set a key, replacing any existing binding (JS `map.set` / field write). -/
def alInsert (l : List (κ × ν)) (k : κ) (v : ν) : List (κ × ν) :=
  l.filter (fun p => !decide (p.1 = k)) ++ [(k, v)]

/-- Delete a key (JS `map.delete`). -/
def alErase (l : List (κ × ν)) (k : κ) : List (κ × ν) :=
  l.filter (fun p => !decide (p.1 = k))

theorem alGet_append (a b : List (κ × ν)) (k : κ) :
    alGet (a ++ b) k = match alGet a k with
      | some v => some v
      | none => alGet b k := by
  induction a with
  | nil => simp [alGet]
  | cons p rest ih =>
      by_cases h : p.1 = k
      · cases p; simp_all [alGet]
      · cases p; simp_all [alGet]

theorem alGet_erase_self (l : List (κ × ν)) (k : κ) :
    alGet (alErase l k) k = none := by
  induction l with
  | nil => simp [alErase, alGet]
  | cons p rest ih =>
      by_cases h : p.1 = k
      · simpa [alErase, alGet, h] using ih
      · simp only [alErase, List.filter] at ih ⊢
        simp [alGet, h, ih]

theorem alGet_erase_ne (l : List (κ × ν)) (k k' : κ) (h : k ≠ k') :
    alGet (alErase l k) k' = alGet l k' := by
  have h' : ¬(k' = k) := fun hq => h hq.symm
  induction l with
  | nil => simp [alErase, alGet]
  | cons p rest ih =>
      by_cases hp : p.1 = k
      · have hpk' : ¬(p.1 = k') := by rw [hp]; exact h
        simp only [alErase] at ih ⊢
        simp [alGet, List.filter_cons, hp, hpk', h, ih]
      · simp only [alErase] at ih ⊢
        by_cases hp' : p.1 = k'
        · simp [alGet, List.filter_cons, hp, hp', h']
        · simp [alGet, List.filter_cons, hp, hp', ih]

theorem alGet_insert_self (l : List (κ × ν)) (k : κ) (v : ν) :
    alGet (alInsert l k v) k = some v := by
  rw [alInsert, alGet_append]
  have : alGet (alErase l k) k = none := alGet_erase_self l k
  rw [alErase] at this
  rw [this]
  simp [alGet]

theorem alGet_insert_ne (l : List (κ × ν)) (k k' : κ) (v : ν) (h : k ≠ k') :
    alGet (alInsert l k v) k' = alGet l k' := by
  rw [alInsert, alGet_append]
  have hf : alGet (alErase l k) k' = alGet l k' := alGet_erase_ne l k k' h
  rw [alErase] at hf
  rw [hf]
  cases hl : alGet l k' with
  | none => simp [alGet, h]
  | some v' => rfl

end AssocList

/-! ## JavaScript values -/

/-- A JavaScript value as stored in incident state.  `null` stands for both
`null` and `undefined` (the source only ever tests truthiness or key
presence on these). -/
inductive JValue where
  | null : JValue
  | b (v : Bool) : JValue
  | num (q : ℚ) : JValue
  | str (s : String) : JValue
  | arr (l : List JValue) : JValue
  | obj (fields : List (String × JValue)) : JValue

/-- A JavaScript object: ordered association list of fields. -/
abbrev Obj := List (String × JValue)

/-- JavaScript truthiness.  Arrays and objects are always truthy; `0`, `""`,
`false`, `null`/`undefined` are falsy. -/
def JValue.truthy : JValue → Bool
  | .null => false
  | .b v => v
  | .num q => q != 0
  | .str s => s != ""
  | .arr _ => true
  | .obj _ => true

/-- JavaScript `a || b`. -/
def jor (a b : JValue) : JValue := if a.truthy then a else b

/-- JS strict equality `v === 's'` against a string literal. -/
def jsEqStr (v : JValue) (s : String) : Bool :=
  match v with
  | .str t => t == s
  | _ => false

/-- JS strict equality `v === q` against a number literal. -/
def jsEqNum (v : JValue) (q : ℚ) : Bool :=
  match v with
  | .num r => r == q
  | _ => false

/-- Field lookup (first match; objects built by `Obj.insert` have unique keys). -/
def Obj.get (o : Obj) (k : String) : Option JValue := alGet o k

/-- JS member access `o.k`: `undefined` (modelled `null`) when the key is absent. -/
def Obj.jsGet (o : Obj) (k : String) : JValue := (o.get k).getD .null

/-- Set a field, replacing any existing binding for the key. -/
def Obj.insert (o : Obj) (k : String) (v : JValue) : Obj := alInsert o k v

/-- JS object spread `{...a, ...b}`: fields of `b` override fields of `a`. -/
def Obj.spread (a b : Obj) : Obj := b.foldl (fun acc p => acc.insert p.1 p.2) a

/-- Field access on an arbitrary JS value (`undefined` on non-objects; the
source only does this behind truthiness guards). -/
def jsField (v : JValue) (k : String) : JValue :=
  match v with
  | .obj o => Obj.jsGet o k
  | _ => .null

theorem objGet_insert_self (o : Obj) (k : String) (v : JValue) :
    (o.insert k v).get k = some v := alGet_insert_self o k v

theorem objGet_insert_ne (o : Obj) (k k' : String) (v : JValue) (h : k ≠ k') :
    (o.insert k v).get k' = o.get k' := alGet_insert_ne o k k' v h

/-! ## The state store (`RedisStateManager`, in-memory mode)

Keys `incident:${id}` and `approval:${id}` live in disjoint namespaces; they
are modelled by the two constructors of `Key`. -/

inductive Key where
  | incident (id : String) : Key
  | approval (id : String) : Key
  deriving DecidableEq, Repr

abbrev Store := List (Key × Obj)

def Store.get (st : Store) (k : Key) : Option Obj := alGet st k

def Store.insert (st : Store) (k : Key) (v : Obj) : Store := alInsert st k v

def Store.erase (st : Store) (k : Key) : Store := alErase st k

theorem storeGet_insert_self (st : Store) (k : Key) (v : Obj) :
    (st.insert k v).get k = some v := alGet_insert_self st k v

theorem storeGet_insert_ne (st : Store) (k k' : Key) (v : Obj) (h : k ≠ k') :
    (st.insert k v).get k' = st.get k' := alGet_insert_ne st k k' v h

theorem storeGet_erase_self (st : Store) (k : Key) :
    (st.erase k).get k = none := alGet_erase_self st k

theorem storeGet_erase_ne (st : Store) (k k' : Key) (h : k ≠ k') :
    (st.erase k).get k' = st.get k' := alGet_erase_ne st k k' h

/-- `setIncidentState`'s record construction (redis.js lines 103–120): the
persisted record is rebuilt from a **fixed** list of fields; any other field
of the passed state object is discarded, and falsy field values are replaced
by the defaults via JS `||`. -/
def mkIncidentData (now incidentId : String) (state : Obj) : Obj :=
  [("incident_id", JValue.str incidentId),
   ("current_stage", jor (state.jsGet "current_stage") (JValue.str "TRIGGERED")),
   ("hypothesis", jor (state.jsGet "hypothesis") JValue.null),
   ("hypothesis_confidence", jor (state.jsGet "hypothesis_confidence") JValue.null),
   ("context", jor (jor (state.jsGet "context") (state.jsGet "sanity_context")) JValue.null),
   ("context_match_score", jor (state.jsGet "context_match_score") JValue.null),
   ("remediation_code", jor (state.jsGet "remediation_code") JValue.null),
   ("anthropic_reasoning", jor (state.jsGet "anthropic_reasoning") JValue.null),
   ("coder_workspace_id", jor (state.jsGet "coder_workspace_id") JValue.null),
   ("verification_status", jor (state.jsGet "verification_status") JValue.null),
   ("created_at", jor (state.jsGet "created_at") (JValue.str now)),
   ("updated_at", JValue.str now),
   ("alert_payload", jor (state.jsGet "alert_payload") JValue.null),
   ("service_id", jor (state.jsGet "service_id") JValue.null),
   ("title", jor (state.jsGet "title") JValue.null),
   ("urgency", jor (state.jsGet "urgency") JValue.null)]

/-- `RedisStateManager.setIncidentState` (memory mode): store the rebuilt
record under `incident:${id}` and return it. -/
def setIncidentState (now incidentId : String) (state : Obj) (st : Store) :
    Store × Obj :=
  let data := mkIncidentData now incidentId state
  (st.insert (.incident incidentId) data, data)

/-- `RedisStateManager.getIncidentState` (memory mode; the JSON round trip is
the identity on our value model). -/
def getIncidentState (incidentId : String) (st : Store) : Option Obj :=
  st.get (.incident incidentId)

/-- `RedisStateManager.updateIncidentState`: shallow merge `{...current,
...updates}` passed through `setIncidentState`; throws when the incident is
missing. -/
def updateIncidentState (now incidentId : String) (updates : Obj) (st : Store) :
    Except String (Store × Obj) :=
  match getIncidentState incidentId st with
  | none => .error ("Incident " ++ incidentId ++ " not found")
  | some current => .ok (setIncidentState now incidentId (current.spread updates) st)

/-- JS `Array.prototype.push` on a value expected to be an array (on the
states this store can produce, `stage_history` is always absent, so the
non-array branch is unreachable from reachable states). -/
def jsPush (v entry : JValue) : JValue :=
  match v with
  | .arr l => .arr (l ++ [entry])
  | x => x

/-- `RedisStateManager.transitionStage`: read the record, append a
`{from, to, timestamp}` entry to `current.stage_history || []`, and persist
`{...current, ...additionalData, current_stage, stage_history}` through
`setIncidentState`. -/
def transitionStage (now incidentId newStage : String) (additionalData : Obj)
    (st : Store) : Except String (Store × Obj) :=
  match getIncidentState incidentId st with
  | none => .error ("Incident " ++ incidentId ++ " not found")
  | some current =>
      let hist := jsPush (jor (current.jsGet "stage_history") (JValue.arr []))
        (JValue.obj [("from", current.jsGet "current_stage"),
                     ("to", JValue.str newStage),
                     ("timestamp", JValue.str now)])
      .ok (setIncidentState now incidentId
        (((current.spread additionalData).insert "current_stage"
            (JValue.str newStage)).insert "stage_history" hist) st)

/-- `RedisStateManager.setPendingApproval`: unconditional write of
`{...approvalData, requested_at}` under `approval:${id}`. -/
def setPendingApproval (now incidentId : String) (approvalData : Obj)
    (st : Store) : Store :=
  st.insert (.approval incidentId)
    (approvalData.insert "requested_at" (JValue.str now))

/-- `RedisStateManager.getPendingApproval`. -/
def getPendingApproval (incidentId : String) (st : Store) : Option Obj :=
  st.get (.approval incidentId)

/-- `RedisStateManager.clearPendingApproval`. -/
def clearPendingApproval (incidentId : String) (st : Store) : Store :=
  st.erase (.approval incidentId)

/-! ## The Confidence Protocol (`Orchestrator.evaluateConfidence`,
`EnhancedOrchestrator.evaluateConfidenceEnhanced`)

The scalar inputs are numbers or null/undefined in the source (`x || 0`
coerces the missing case to `0`); they are modelled as `Option ℚ`.
`risk` is compared with `=== 'HIGH'`, so it stays a full `JValue`.

The thresholds come from the orchestrator instance:
* `this.confidenceThreshold = config.confidence.autoExecuteThreshold`
  (default `90`);
* `this.contextMatchThreshold = config.confidence.contextMatchThreshold || 70`
  in the base `Orchestrator` — but `config.confidence` **has no**
  `contextMatchThreshold` key (it defines `autoExecuteThreshold` and
  `sensoMatchThreshold: 85`), so the base orchestrator always uses the
  hard-coded fallback `70`;
* `this.contextMatchThreshold = config.confidence.contextMatchThreshold`
  (no fallback) in `EnhancedOrchestrator` — i.e. `undefined`, and in JS
  `x < undefined` is always false, which disables the context gate.
  `undefined` thresholds are modelled by `Option ℚ` with `jsLtOpt`. -/

/-- JS `(x || 0)` on a number-or-missing value. -/
def orZero : Option ℚ → ℚ
  | none => 0
  | some q => q

/-- JS `a < t` where `t` may be `undefined` (`a < undefined` is `false`). -/
def jsLtOpt (a : ℚ) : Option ℚ → Bool
  | some t => decide (a < t)
  | none => false

/-- `config.confidence.autoExecuteThreshold` default (`'90'` parsed). -/
def autoExecuteThreshold : ℚ := 90

/-- `config.confidence.sensoMatchThreshold` default (`'85'` parsed).  Defined
in the configuration but never read by either orchestrator. -/
def sensoMatchThreshold : ℚ := 85

/-- `this.contextMatchThreshold` of the base `Orchestrator` under the default
configuration: `config.confidence.contextMatchThreshold || 70` where the
config key does not exist, hence `70`. -/
def orchestratorContextMatchThreshold : Option ℚ := some 70

/-- `this.contextMatchThreshold` of `EnhancedOrchestrator` under the default
configuration: `config.confidence.contextMatchThreshold` with no fallback,
hence `undefined`. -/
def enhancedContextMatchThreshold : Option ℚ := none

/-- `Orchestrator.evaluateConfidence` (part_011 lines 155–190), parameterised
by the instance thresholds. -/
def evaluateConfidence (confidenceThreshold : ℚ) (contextMatchThreshold : Option ℚ)
    (hypothesisConfidence contextMatchScore remediationConfidence : Option ℚ)
    (risk : JValue) : Bool :=
  if jsEqStr risk "HIGH" then false
  else if orZero hypothesisConfidence < confidenceThreshold then false
  else if jsLtOpt (orZero contextMatchScore) contextMatchThreshold then false
  else if orZero remediationConfidence < 70 then false
  else true

/-- The critical edge-case tags of
`EnhancedOrchestrator.evaluateConfidenceEnhanced`. -/
def criticalEdgeCases : List String :=
  ["novel_failure", "conflicting_evidence", "data_sensitive", "high_blast_radius"]

/-- `EnhancedOrchestrator.evaluateConfidenceEnhanced` (part_003 lines
241–270): base evaluation first, then the critical edge-case override. -/
def evaluateConfidenceEnhanced (confidenceThreshold : ℚ)
    (contextMatchThreshold : Option ℚ)
    (hypothesisConfidence contextMatchScore remediationConfidence : Option ℚ)
    (risk : JValue) (edgeCases : List String) : Bool :=
  let baseResult := evaluateConfidence confidenceThreshold contextMatchThreshold
    hypothesisConfidence contextMatchScore remediationConfidence risk
  if !baseResult then false
  else if edgeCases.any (fun ec => criticalEdgeCases.contains ec) then false
  else true

/-! ## Effect model for the orchestrator

Phase handlers are `async` JS functions that mutate the state store, call
external collaborators (which either resolve or reject), and use
`try`/`catch`.  They are modelled in the monad
`M α = OrchState → Except String α × OrchState`: a thrown JS exception is an
`Except.error` carrying the message, and — crucially — state mutations made
before the throw persist (Redis writes are not rolled back), which is why
the state component survives the error case.

Observable side effects on external systems (sandbox creation/deletion,
Slack notification, PagerDuty notes, entry into `executeRemediation`) are
recorded in an append-only event trace. -/

/-- Observable external effects. -/
inductive Event where
  | workspaceCreated (name : String) : Event
  | workspaceDeleted (name : String) : Event
  | slackApprovalRequested (incidentId : String) : Event
  | pagerDutyNoteAdded (incidentId : String) : Event
  | executeRemediationEntered (incidentId : String) : Event
  deriving DecidableEq, Repr

structure OrchState where
  store : Store
  events : List Event

abbrev M (α : Type) := OrchState → Except String α × OrchState

def pureM {α : Type} (a : α) : M α := fun s => (.ok a, s)

def bindM {α β : Type} (m : M α) (f : α → M β) : M β := fun s =>
  match m s with
  | (.ok a, s') => f a s'
  | (.error e, s') => (.error e, s')

/-- JS `throw new Error(msg)`. -/
def throwM {α : Type} (e : String) : M α := fun s => (.error e, s)

/-- JS `try { body } catch (error) { handler(error.message) }`. -/
def jsTry {α : Type} (body : M α) (handler : String → M α) : M α := fun s =>
  match body s with
  | (.ok a, s') => (.ok a, s')
  | (.error e, s') => handler e s'

/-- Await an external collaborator call: its outcome is fixed by the
behaviour oracle (`Collab`), it does not touch orchestrator state. -/
def liftE {α : Type} (e : Except String α) : M α := fun s => (e, s)

/-- Record an observable external effect. -/
def emitM (ev : Event) : M Unit := fun s =>
  (.ok (), { s with events := s.events ++ [ev] })

/-! Store primitives in `M` (the `stateManager` singleton). -/

def sGetIncident (id : String) : M (Option Obj) := fun s =>
  (.ok (getIncidentState id s.store), s)

def sSetIncident (now id : String) (state : Obj) : M Obj := fun s =>
  let r := setIncidentState now id state s.store
  (.ok r.2, { s with store := r.1 })

def sUpdateIncident (now id : String) (updates : Obj) : M Obj := fun s =>
  match updateIncidentState now id updates s.store with
  | .error e => (.error e, s)
  | .ok r => (.ok r.2, { s with store := r.1 })

def sTransition (now id newStage : String) (additionalData : Obj) : M Obj := fun s =>
  match transitionStage now id newStage additionalData s.store with
  | .error e => (.error e, s)
  | .ok r => (.ok r.2, { s with store := r.1 })

def sSetPending (now id : String) (approvalData : Obj) : M Unit := fun s =>
  (.ok (), { s with store := setPendingApproval now id approvalData s.store })

def sGetPending (id : String) : M (Option Obj) := fun s =>
  (.ok (getPendingApproval id s.store), s)

def sClearPending (id : String) : M Unit := fun s =>
  (.ok (), { s with store := clearPendingApproval id s.store })

/-- JS member access `o.k` where `o` may be `null` (a `TypeError` is thrown
on `null`, and it is caught by the enclosing `try` like any other error). -/
def jsObjFieldM (o? : Option Obj) (k : String) : M JValue :=
  match o? with
  | none => throwM ("TypeError: Cannot read properties of null (reading '" ++ k ++ "')")
  | some o => pureM (o.jsGet k)

/-! ## Collaborator contracts

Each external call either resolves with a value or rejects with an error
message; a run of a phase handler is parameterised by this behaviour
oracle.  `formatForPrompt` is a synchronous pure method of the context
client; `jsonStringifyResearch` stands for `JSON.stringify` applied to the
research payload (an injected serialiser — its output only feeds prompt
text, which no claim depends on). -/

structure SearchResults where
  results : JValue
  maxScore : ℚ

structure Workspace where
  workspaceId : JValue
  name : String

structure ExecRes where
  exitCode : JValue
  stdout : JValue
  stderr : JValue

/-- The collaborator payload returned by the reasoning service
(`aiClient.generateRemediation`), §6 contract. -/
structure Remediation where
  code : JValue
  reproductionCode : JValue
  language : JValue
  reasoning : JValue
  risk : JValue
  confidence : Option ℚ
  requiresApproval : Bool

/-- The parsed hypothesis handed to `processHypothesis`. -/
structure Hypothesis where
  hypothesis : JValue
  confidence : Option ℚ

structure Collab where
  redact : Except String String
  sanitySearch : Except String SearchResults
  parallelResearch : Except String JValue
  formatForPrompt : JValue → String
  jsonStringifyResearch : JValue → String
  generateRemediation : Except String (Option Remediation)
  slackRequestApproval : Except String (Option JValue)
  createWorkspace : Except String (Option Workspace)
  waitForWorkspace : Except String Bool
  executeInWorkspace : Except String (Option ExecRes)
  deleteWorkspace : Except String Unit
  healthCheckPre : Except String JValue
  healthCheckVerify : Except String JValue
  pagerdutyAddNote : Except String Unit

/-- Orchestrator instance thresholds (set in the constructor from
`config.confidence`). -/
structure OrchCfg where
  confidenceThreshold : ℚ
  contextMatchThreshold : Option ℚ

/-- The base `Orchestrator` under the default configuration. -/
def defaultOrchCfg : OrchCfg :=
  { confidenceThreshold := autoExecuteThreshold,
    contextMatchThreshold := orchestratorContextMatchThreshold }

/-- Coerce a stored JS value to the number-or-missing shape expected by the
confidence evaluator (stored scores are numbers or null). -/
def jvNumOpt : JValue → Option ℚ
  | .num q => some q
  | _ => none

/-- `x?.y` then stored: missing becomes null. -/
def optQToJV : Option ℚ → JValue
  | none => .null
  | some q => .num q

def execResToJV : Option ExecRes → JValue
  | none => .null
  | some er => .obj [("exitCode", er.exitCode), ("stdout", er.stdout), ("stderr", er.stderr)]

/-- Display of `execResult?.exitCode` in the failure message (string
concatenation with a JS value; exact rendering is irrelevant to every
claim — the field it feeds is discarded by the store schema anyway). -/
def jvDisplay : JValue → String
  | .null => "undefined"
  | .b true => "true"
  | .b false => "false"
  | .num q => toString q
  | .str s => s
  | .arr _ => "[array]"
  | .obj _ => "[object Object]"

/-! ## Orchestrator phase handlers (part_011) -/

/-- The shared shape of every phase handler's `catch` block: transition to
`ESCALATED` with error details. -/
def escalateOn (now id : String) (extra : String → Obj) : String → M Unit :=
  fun e => bindM (sTransition now id "ESCALATED" (extra e)) (fun _ => pureM ())

/-- `coderClient.createWorkspace`, with the created sandbox recorded in the
event trace. -/
def callCreateWorkspace (c : Collab) : M (Option Workspace) :=
  bindM (liftE c.createWorkspace) (fun w? =>
    match w? with
    | some w => bindM (emitM (.workspaceCreated w.name)) (fun _ => pureM (some w))
    | none => pureM none)

/-- `coderClient.deleteWorkspace` (teardown), recorded in the event trace. -/
def callDeleteWorkspace (c : Collab) (name : String) : M Unit :=
  bindM (liftE c.deleteWorkspace) (fun _ => emitM (.workspaceDeleted name))

/-- `slackClient.requestApproval`, recorded in the event trace. -/
def callSlackRequestApproval (c : Collab) (id : String) : M (Option JValue) :=
  bindM (liftE c.slackRequestApproval) (fun r =>
    bindM (emitM (.slackApprovalRequested id)) (fun _ => pureM r))

/-- `pagerdutyClient.addNote`, recorded in the event trace. -/
def callAddNote (c : Collab) (id : String) : M Unit :=
  bindM (liftE c.pagerdutyAddNote) (fun _ => emitM (.pagerDutyNoteAdded id))

/-- `Orchestrator.runPreFlightCheck` (part_011 lines 335–347): skip (return
null) when the record has no `health_check_url`, else call the health-check
collaborator. -/
def runPreFlightCheck (c : Collab) (incidentState : Obj) : M JValue :=
  if !(incidentState.jsGet "health_check_url").truthy then pureM .null
  else liftE c.healthCheckPre

/-- The `try` block of `Orchestrator.verifyRemediation` (part_011 lines
353–424). -/
def verifyBody (c : Collab) (now id : String) : M Unit :=
  bindM (sTransition now id "VERIFYING" []) (fun _ =>
     bindM (sGetIncident id) (fun incidentState? =>
     bindM (jsObjFieldM incidentState? "health_check_url") (fun healthUrl =>
     bindM (if healthUrl.truthy then liftE c.healthCheckVerify
            else pureM (JValue.obj [("success", JValue.b true)])) (fun verification =>
     bindM (sUpdateIncident now id
        [("verification_status",
          JValue.str (if (jsField verification "success").truthy then "passed" else "failed")),
         ("verification_result", verification),
         ("verified_at", JValue.str now)]) (fun _ =>
     if (jsField verification "success").truthy then
       bindM (sTransition now id "RESOLVED"
         [("resolution", JValue.str "auto_remediated"),
          ("resolved_at", JValue.str now)]) (fun _ =>
       callAddNote c id)
     else
       bindM (sTransition now id "ESCALATED"
         [("error", JValue.str "Verification failed after remediation"),
          ("verification_result", verification)]) (fun _ =>
       callAddNote c id))))))

/-- `Orchestrator.verifyRemediation`: the `try` block wrapped in its `catch`. -/
def verifyRemediation (c : Collab) (now id : String) : M Unit :=
  jsTry (verifyBody c now id)
    (escalateOn now id (fun e =>
      [("error", JValue.str e), ("error_stage", JValue.str "verification")]))

/-- The `try` block of `Orchestrator.executeRemediation` (part_011 lines
239–330). -/
def execBody (c : Collab) (now id : String) : M Unit :=
  bindM (sGetIncident id) (fun incidentState? =>
     match incidentState? with
     | none => throwM "No remediation code found"
     | some incidentState =>
       if !(incidentState.jsGet "remediation_code").truthy then
         throwM "No remediation code found"
       else
       bindM (sTransition now id "EXECUTING" []) (fun _ =>
       bindM (runPreFlightCheck c incidentState) (fun preFlightCheck =>
       if preFlightCheck.truthy && (jsField preFlightCheck "success").truthy then
         bindM (sTransition now id "RESOLVED"
           [("resolution", JValue.str "self_healed"),
            ("resolved_at", JValue.str now)]) (fun _ => pureM ())
       else
       bindM (callCreateWorkspace c) (fun workspace? =>
       match workspace? with
       | none => throwM "Failed to create workspace"
       | some workspace =>
         bindM (sUpdateIncident now id
           [("coder_workspace_id", workspace.workspaceId),
            ("coder_workspace_name", JValue.str workspace.name)]) (fun _ =>
         bindM (liftE c.waitForWorkspace) (fun ready =>
         if !ready then throwM "Workspace failed to become ready"
         else
         bindM (liftE c.executeInWorkspace) (fun execResult =>
         bindM (sUpdateIncident now id
           [("execution_result", execResToJV execResult),
            ("execution_exit_code",
             match execResult with | some er => er.exitCode | none => JValue.null),
            ("executed_at", JValue.str now)]) (fun _ =>
         bindM
           (match execResult with
            | some er =>
              if jsEqNum er.exitCode 0 then
                verifyRemediation c now id
              else
                bindM (sTransition now id "ESCALATED"
                  [("error", JValue.str
                     ("Execution failed with exit code " ++ jvDisplay er.exitCode)),
                   ("stderr", er.stderr)]) (fun _ => pureM ())
            | none =>
              bindM (sTransition now id "ESCALATED"
                [("error", JValue.str "Execution failed with exit code undefined"),
                 ("stderr", JValue.null)]) (fun _ => pureM ()))
           (fun _ => callDeleteWorkspace c workspace.name)))))))))

/-- `Orchestrator.executeRemediation`: the `try` block wrapped in its
`catch`, with the instrumentation event first. -/
def executeRemediation (c : Collab) (now id : String) : M Unit :=
  bindM (emitM (.executeRemediationEntered id)) (fun _ =>
  jsTry (execBody c now id)
    (escalateOn now id (fun e =>
      [("error", JValue.str e), ("error_stage", JValue.str "execution")])))

/-- The `try` block of `Orchestrator.requestHumanApproval` (part_011 lines
195–233): store the pending-approval snapshot first, notify Slack, then
mark the record. -/
def requestApprovalBody (c : Collab) (now id : String) (remediation : Remediation)
    (hypothesis : Hypothesis) (incidentState? : Option Obj) : M Unit :=
  bindM (sSetPending now id
       [("remediation_code", remediation.code),
        ("hypothesis", hypothesis.hypothesis),
        ("risk", remediation.risk)]) (fun _ =>
     bindM (jsObjFieldM incidentState? "title") (fun _ =>
     bindM (jsObjFieldM incidentState? "service_name") (fun _ =>
     bindM (callSlackRequestApproval c id) (fun result? =>
     bindM (sUpdateIncident now id
       [("pending_approval", JValue.b true),
        ("approval_requested_at", JValue.str now),
        ("approval_slack_ts",
         match result? with | some r => jsField r "messageTs" | none => JValue.null)])
       (fun _ => pureM ())))))

/-- `Orchestrator.requestHumanApproval`: the `try` block wrapped in its
`catch` (which carries no `error_stage`). -/
def requestHumanApproval (c : Collab) (now id : String) (remediation : Remediation)
    (hypothesis : Hypothesis) (incidentState? : Option Obj) : M Unit :=
  jsTry (requestApprovalBody c now id remediation hypothesis incidentState?)
    (escalateOn now id (fun e =>
      [("error", JValue.str ("Failed to request approval: " ++ e))]))

/-- The `try` block of `Orchestrator.synthesizeRemediation` (part_011
lines 86–149). -/
def synthesizeBody (cfg : OrchCfg) (c : Collab) (now id : String)
    (hypothesis : Hypothesis) (runbookContext : String)
    (incidentState? : Option Obj) : M Unit :=
  bindM (sTransition now id "SYNTHESIZING" []) (fun _ =>
     bindM (liftE c.generateRemediation) (fun remediation? =>
     match remediation? with
     | none =>
         bindM (sTransition now id "ESCALATED"
           [("error", JValue.str "No remediation code generated"),
            ("anthropic_reasoning", JValue.null)]) (fun _ => pureM ())
     | some remediation =>
       if !remediation.code.truthy then
         bindM (sTransition now id "ESCALATED"
           [("error", JValue.str "No remediation code generated"),
            ("anthropic_reasoning", remediation.reasoning)]) (fun _ => pureM ())
       else
         bindM (sUpdateIncident now id
           [("remediation_code", remediation.code),
            ("reproduction_code", remediation.reproductionCode),
            ("remediation_language", jor remediation.language (JValue.str "python")),
            ("anthropic_reasoning", remediation.reasoning),
            ("remediation_risk", remediation.risk),
            ("remediation_confidence", optQToJV remediation.confidence)]) (fun _ =>
         bindM (jsObjFieldM incidentState? "context_match_score") (fun cms =>
         let shouldAutoExecute := evaluateConfidence cfg.confidenceThreshold
           cfg.contextMatchThreshold hypothesis.confidence (jvNumOpt cms)
           remediation.confidence remediation.risk
         if shouldAutoExecute && !remediation.requiresApproval then
           executeRemediation c now id
         else
           requestHumanApproval c now id remediation hypothesis incidentState?))))

/-- `Orchestrator.synthesizeRemediation`: the `try` block wrapped in its
`catch`. -/
def synthesizeRemediation (cfg : OrchCfg) (c : Collab) (now id : String)
    (hypothesis : Hypothesis) (runbookContext : String)
    (incidentState? : Option Obj) : M Unit :=
  jsTry (synthesizeBody cfg c now id hypothesis runbookContext incidentState?)
    (escalateOn now id (fun e =>
      [("error", JValue.str e), ("error_stage", JValue.str "synthesis")]))

/-- The `try` block of `Orchestrator.processHypothesis` (part_011 lines
33–80). -/
def processHypothesisBody (cfg : OrchCfg) (c : Collab) (now id : String)
    (parsedHypothesis : Hypothesis) (query : String) : M Unit :=
  bindM (liftE c.redact) (fun redactedQuery =>
     bindM (liftE c.sanitySearch) (fun sanityResults =>
     bindM (liftE c.parallelResearch) (fun parallelResearch =>
     bindM (sTransition now id "CONTEXT_RETRIEVED"
       [("sanity_context", sanityResults.results),
        ("context_match_score", JValue.num (sanityResults.maxScore * 100)),
        ("parallel_research", parallelResearch),
        ("query", JValue.str redactedQuery)]) (fun _ =>
     let contextText := c.formatForPrompt sanityResults.results
     let contextText := if parallelResearch.truthy
       then contextText ++ "\n\nParallel Research:\n" ++ c.jsonStringifyResearch parallelResearch
       else contextText
     bindM (sGetIncident id) (fun incidentState? =>
     synthesizeRemediation cfg c now id parsedHypothesis contextText incidentState?)))))

/-- `Orchestrator.processHypothesis`: the `try` block wrapped in its
`catch`. -/
def processHypothesis (cfg : OrchCfg) (c : Collab) (now id : String)
    (parsedHypothesis : Hypothesis) (query : String) : M Unit :=
  jsTry (processHypothesisBody cfg c now id parsedHypothesis query)
    (escalateOn now id (fun e =>
      [("error", JValue.str e), ("error_stage", JValue.str "context_retrieval")]))

/-- `SlackWebhookHandler.handleApproval` (webhooks/slack.js, packed in
`src/src/config/index.js` lines 139–166): silently returns when no pending
approval exists; otherwise clears it and either resumes execution
(approved) or escalates (rejected).  Note it has no `try`/`catch`. -/
def handleApproval (c : Collab) (now id approver : String) (approved : Bool) : M Unit :=
  bindM (sGetPending id) (fun approval? =>
  match approval? with
  | none => pureM ()
  | some _ =>
    bindM (sClearPending id) (fun _ =>
    if approved then
      bindM (sUpdateIncident now id
        [("human_approved", JValue.b true),
         ("approved_by", JValue.str approver),
         ("approved_at", JValue.str now)]) (fun _ =>
      executeRemediation c now id)
    else
      bindM (sTransition now id "ESCALATED"
        [("human_rejected", JValue.b true),
         ("rejected_by", JValue.str approver),
         ("rejected_at", JValue.str now)]) (fun _ => pureM ())))

/-! ## Invariant framework

`Live id s` says the incident record exists.  `StepRel` is the reflexive,
transitive relation every orchestrator step satisfies: records are never
deleted (so liveness is preserved — even on a throw, since mutations
already made survive), and the event trace only grows.  `ApprovalsEq`
additionally says a computation never touches pending-approval records
(true of every phase handler except the approval gateway itself). -/

def Live (id : String) (s : OrchState) : Prop :=
  (getIncidentState id s.store).isSome = true

def StepRel (s s' : OrchState) : Prop :=
  (∀ id, Live id s → Live id s') ∧ ∃ tail, s'.events = s.events ++ tail

def ApprovalsEq (s s' : OrchState) : Prop :=
  ∀ k, getPendingApproval k s'.store = getPendingApproval k s.store

theorem stepRel_refl (s : OrchState) : StepRel s s :=
  ⟨fun _ h => h, [], by simp⟩

theorem stepRel_trans {a b c : OrchState} (h1 : StepRel a b) (h2 : StepRel b c) :
    StepRel a c := by
  obtain ⟨hl1, t1, he1⟩ := h1
  obtain ⟨hl2, t2, he2⟩ := h2
  exact ⟨fun id h => hl2 id (hl1 id h), t1 ++ t2, by rw [he2, he1, List.append_assoc]⟩

theorem approvalsEq_refl (s : OrchState) : ApprovalsEq s s := fun _ => rfl

theorem approvalsEq_trans {a b c : OrchState} (h1 : ApprovalsEq a b)
    (h2 : ApprovalsEq b c) : ApprovalsEq a c := fun k => (h2 k).trans (h1 k)

theorem stepRel_trans3 : ∀ a b c : OrchState, StepRel a b → StepRel b c → StepRel a c :=
  fun _ _ _ h1 h2 => stepRel_trans h1 h2

theorem approvalsEq_trans3 : ∀ a b c : OrchState, ApprovalsEq a b → ApprovalsEq b c → ApprovalsEq a c :=
  fun _ _ _ h1 h2 => approvalsEq_trans h1 h2

/-- A computation whose every run relates initial to final state by `R`. -/
def Preserves {α : Type} (R : OrchState → OrchState → Prop) (m : M α) : Prop :=
  ∀ s, R s (m s).2

theorem preserves_bindM {α β : Type} {R} {m : M α} {f : α → M β}
    (htrans : ∀ a b c, R a b → R b c → R a c)
    (hm : Preserves R m) (hf : ∀ a, Preserves R (f a)) :
    Preserves R (bindM m f) := by
  intro s
  have h1 := hm s
  rcases hms : m s with ⟨r, s'⟩
  rw [hms] at h1
  cases r with
  | ok a =>
      have h2 := hf a s'
      simp only [bindM, hms]
      exact htrans _ _ _ h1 h2
  | error e =>
      simp only [bindM, hms]
      exact h1

theorem preserves_jsTry {α : Type} {R} {m : M α} {h : String → M α}
    (htrans : ∀ a b c, R a b → R b c → R a c)
    (hm : Preserves R m) (hh : ∀ e, Preserves R (h e)) :
    Preserves R (jsTry m h) := by
  intro s
  have h1 := hm s
  rcases hms : m s with ⟨r, s'⟩
  rw [hms] at h1
  cases r with
  | ok a =>
      simp only [jsTry, hms]
      exact h1
  | error e =>
      have h2 := hh e s'
      simp only [jsTry, hms]
      exact htrans _ _ _ h1 h2

theorem preserves_pureM {α : Type} {R} (hrefl : ∀ s, R s s) (a : α) :
    Preserves R (pureM a) := fun s => hrefl s

theorem preserves_throwM {α : Type} {R} (hrefl : ∀ s, R s s) (e : String) :
    Preserves R (throwM (α := α) e) := fun s => hrefl s

theorem preserves_liftE {α : Type} {R} (hrefl : ∀ s, R s s) (e : Except String α) :
    Preserves R (liftE e) := fun s => by cases e <;> exact hrefl s

/-! Primitive steps satisfy `StepRel`. -/

theorem live_insert_incident {id i : String} {v : Obj} {s : OrchState}
    (h : Live id s) :
    Live id { s with store := s.store.insert (.incident i) v } := by
  unfold Live getIncidentState at *
  by_cases hid : (Key.incident i) = (Key.incident id)
  · rw [← hid, storeGet_insert_self]; rfl
  · rwa [storeGet_insert_ne _ _ _ _ hid]

theorem live_insert_approval {id i : String} {v : Obj} {s : OrchState}
    (h : Live id s) :
    Live id { s with store := s.store.insert (.approval i) v } := by
  unfold Live getIncidentState at *
  rwa [storeGet_insert_ne _ _ _ _ (by simp)]

theorem live_erase_approval {id i : String} {s : OrchState} (h : Live id s) :
    Live id { s with store := s.store.erase (.approval i) } := by
  unfold Live getIncidentState at *
  rwa [storeGet_erase_ne _ _ _ (by simp)]

theorem stepRel_store_insert_incident (i : String) (v : Obj) (s : OrchState) :
    StepRel s { s with store := s.store.insert (.incident i) v } :=
  ⟨fun _ h => live_insert_incident h, [], by simp⟩

theorem stepRel_store_insert_approval (i : String) (v : Obj) (s : OrchState) :
    StepRel s { s with store := s.store.insert (.approval i) v } :=
  ⟨fun _ h => live_insert_approval h, [], by simp⟩

theorem stepRel_store_erase_approval (i : String) (s : OrchState) :
    StepRel s { s with store := s.store.erase (.approval i) } :=
  ⟨fun _ h => live_erase_approval h, [], by simp⟩

theorem stepRel_events (ev : Event) (s : OrchState) :
    StepRel s { s with events := s.events ++ [ev] } :=
  ⟨fun _ h => h, [ev], rfl⟩

theorem preserves_stepRel_sGetIncident (id : String) :
    Preserves StepRel (sGetIncident id) := fun s => stepRel_refl s

theorem preserves_stepRel_sGetPending (id : String) :
    Preserves StepRel (sGetPending id) := fun s => stepRel_refl s

theorem preserves_stepRel_emitM (ev : Event) : Preserves StepRel (emitM ev) :=
  fun s => stepRel_events ev s

theorem preserves_stepRel_sSetIncident (now id : String) (st : Obj) :
    Preserves StepRel (sSetIncident now id st) := fun s =>
  stepRel_store_insert_incident id _ s

theorem preserves_stepRel_sUpdateIncident (now id : String) (u : Obj) :
    Preserves StepRel (sUpdateIncident now id u) := by
  intro s
  unfold sUpdateIncident updateIncidentState
  cases hg : getIncidentState id s.store with
  | none => exact stepRel_refl s
  | some cur => exact stepRel_store_insert_incident id _ s

theorem preserves_stepRel_sTransition (now id stg : String) (extra : Obj) :
    Preserves StepRel (sTransition now id stg extra) := by
  intro s
  unfold sTransition transitionStage
  cases hg : getIncidentState id s.store with
  | none => exact stepRel_refl s
  | some cur => exact stepRel_store_insert_incident id _ s

theorem preserves_stepRel_sSetPending (now id : String) (d : Obj) :
    Preserves StepRel (sSetPending now id d) := fun s =>
  stepRel_store_insert_approval id _ s

theorem preserves_stepRel_sClearPending (id : String) :
    Preserves StepRel (sClearPending id) := fun s =>
  stepRel_store_erase_approval id s

theorem preserves_stepRel_jsObjFieldM (o? : Option Obj) (k : String) :
    Preserves StepRel (jsObjFieldM o? k) := by
  cases o? with
  | none => exact preserves_throwM stepRel_refl _
  | some o => exact preserves_pureM stepRel_refl _

/-! Primitive steps of the execution path also satisfy `ApprovalsEq`. -/

theorem approvalsEq_store_insert_incident (i : String) (v : Obj) (s : OrchState) :
    ApprovalsEq s { s with store := s.store.insert (.incident i) v } := by
  intro k
  unfold getPendingApproval
  exact storeGet_insert_ne _ _ _ _ (by simp)

theorem preserves_approvalsEq_sGetIncident (id : String) :
    Preserves ApprovalsEq (sGetIncident id) := fun s => approvalsEq_refl s

theorem preserves_approvalsEq_emitM (ev : Event) :
    Preserves ApprovalsEq (emitM ev) := fun s => approvalsEq_refl s

theorem preserves_approvalsEq_sSetIncident (now id : String) (st : Obj) :
    Preserves ApprovalsEq (sSetIncident now id st) := fun s =>
  approvalsEq_store_insert_incident id _ s

theorem preserves_approvalsEq_sUpdateIncident (now id : String) (u : Obj) :
    Preserves ApprovalsEq (sUpdateIncident now id u) := by
  intro s
  unfold sUpdateIncident updateIncidentState
  cases hg : getIncidentState id s.store with
  | none => exact approvalsEq_refl s
  | some cur => exact approvalsEq_store_insert_incident id _ s

theorem preserves_approvalsEq_sTransition (now id stg : String) (extra : Obj) :
    Preserves ApprovalsEq (sTransition now id stg extra) := by
  intro s
  unfold sTransition transitionStage
  cases hg : getIncidentState id s.store with
  | none => exact approvalsEq_refl s
  | some cur => exact approvalsEq_store_insert_incident id _ s

theorem preserves_approvalsEq_jsObjFieldM (o? : Option Obj) (k : String) :
    Preserves ApprovalsEq (jsObjFieldM o? k) := by
  cases o? with
  | none => exact preserves_throwM approvalsEq_refl _
  | some o => exact preserves_pureM approvalsEq_refl _

theorem preserves_ite {α : Type} {R} (cond : Prop) [Decidable cond]
    {m1 m2 : M α} (h1 : Preserves R m1) (h2 : Preserves R m2) :
    Preserves R (if cond then m1 else m2) := by
  by_cases hc : cond
  · rwa [if_pos hc]
  · rwa [if_neg hc]

/-! `StepRel`-preservation of the composite calls and phase handlers. -/

theorem preserves_stepRel_escalateOn (now id : String) (extra : String → Obj)
    (e : String) : Preserves StepRel (escalateOn now id extra e) := by
  unfold escalateOn
  exact preserves_bindM stepRel_trans3 (preserves_stepRel_sTransition now id _ _)
    (fun _ => preserves_pureM stepRel_refl _)

theorem preserves_stepRel_callCreateWorkspace (c : Collab) :
    Preserves StepRel (callCreateWorkspace c) := by
  unfold callCreateWorkspace
  apply preserves_bindM stepRel_trans3 (preserves_liftE stepRel_refl _)
  intro w?
  cases w? with
  | some w =>
      exact preserves_bindM stepRel_trans3 (preserves_stepRel_emitM _)
        (fun _ => preserves_pureM stepRel_refl _)
  | none => exact preserves_pureM stepRel_refl _

theorem preserves_stepRel_callDeleteWorkspace (c : Collab) (name : String) :
    Preserves StepRel (callDeleteWorkspace c name) := by
  unfold callDeleteWorkspace
  exact preserves_bindM stepRel_trans3 (preserves_liftE stepRel_refl _)
    (fun _ => preserves_stepRel_emitM _)

theorem preserves_stepRel_callSlackRequestApproval (c : Collab) (id : String) :
    Preserves StepRel (callSlackRequestApproval c id) := by
  unfold callSlackRequestApproval
  apply preserves_bindM stepRel_trans3 (preserves_liftE stepRel_refl _)
  intro r
  exact preserves_bindM stepRel_trans3 (preserves_stepRel_emitM _)
    (fun _ => preserves_pureM stepRel_refl _)

theorem preserves_stepRel_callAddNote (c : Collab) (id : String) :
    Preserves StepRel (callAddNote c id) := by
  unfold callAddNote
  exact preserves_bindM stepRel_trans3 (preserves_liftE stepRel_refl _)
    (fun _ => preserves_stepRel_emitM _)

theorem preserves_stepRel_runPreFlightCheck (c : Collab) (st : Obj) :
    Preserves StepRel (runPreFlightCheck c st) := by
  unfold runPreFlightCheck
  exact preserves_ite _ (preserves_pureM stepRel_refl _) (preserves_liftE stepRel_refl _)

theorem preserves_stepRel_verifyBody (c : Collab) (now id : String) :
    Preserves StepRel (verifyBody c now id) := by
  unfold verifyBody
  apply preserves_bindM stepRel_trans3 (preserves_stepRel_sTransition now id _ _)
  intro _
  apply preserves_bindM stepRel_trans3 (preserves_stepRel_sGetIncident id)
  intro incidentState?
  apply preserves_bindM stepRel_trans3 (preserves_stepRel_jsObjFieldM _ _)
  intro healthUrl
  apply preserves_bindM stepRel_trans3
    (preserves_ite _ (preserves_liftE stepRel_refl _) (preserves_pureM stepRel_refl _))
  intro verification
  apply preserves_bindM stepRel_trans3 (preserves_stepRel_sUpdateIncident now id _)
  intro _
  apply preserves_ite
  · exact preserves_bindM stepRel_trans3 (preserves_stepRel_sTransition now id _ _)
      (fun _ => preserves_stepRel_callAddNote c id)
  · exact preserves_bindM stepRel_trans3 (preserves_stepRel_sTransition now id _ _)
      (fun _ => preserves_stepRel_callAddNote c id)

theorem preserves_stepRel_verifyRemediation (c : Collab) (now id : String) :
    Preserves StepRel (verifyRemediation c now id) := by
  unfold verifyRemediation
  exact preserves_jsTry stepRel_trans3 (preserves_stepRel_verifyBody c now id)
    (fun e => preserves_stepRel_escalateOn now id _ e)

theorem preserves_stepRel_execBody (c : Collab) (now id : String) :
    Preserves StepRel (execBody c now id) := by
  unfold execBody
  apply preserves_bindM stepRel_trans3 (preserves_stepRel_sGetIncident id)
  intro incidentState?
  cases incidentState? with
  | none => exact preserves_throwM stepRel_refl _
  | some incidentState =>
      apply preserves_ite
      · exact preserves_throwM stepRel_refl _
      apply preserves_bindM stepRel_trans3 (preserves_stepRel_sTransition now id _ _)
      intro _
      apply preserves_bindM stepRel_trans3 (preserves_stepRel_runPreFlightCheck c _)
      intro preFlightCheck
      apply preserves_ite
      · exact preserves_bindM stepRel_trans3 (preserves_stepRel_sTransition now id _ _)
          (fun _ => preserves_pureM stepRel_refl _)
      apply preserves_bindM stepRel_trans3 (preserves_stepRel_callCreateWorkspace c)
      intro workspace?
      cases workspace? with
      | none => exact preserves_throwM stepRel_refl _
      | some workspace =>
          apply preserves_bindM stepRel_trans3 (preserves_stepRel_sUpdateIncident now id _)
          intro _
          apply preserves_bindM stepRel_trans3 (preserves_liftE stepRel_refl _)
          intro ready
          apply preserves_ite
          · exact preserves_throwM stepRel_refl _
          apply preserves_bindM stepRel_trans3 (preserves_liftE stepRel_refl _)
          intro execResult
          apply preserves_bindM stepRel_trans3 (preserves_stepRel_sUpdateIncident now id _)
          intro _
          apply preserves_bindM stepRel_trans3
          · cases execResult with
            | some er =>
                apply preserves_ite
                · exact preserves_stepRel_verifyRemediation c now id
                · exact preserves_bindM stepRel_trans3
                    (preserves_stepRel_sTransition now id _ _)
                    (fun _ => preserves_pureM stepRel_refl _)
            | none =>
                exact preserves_bindM stepRel_trans3
                  (preserves_stepRel_sTransition now id _ _)
                  (fun _ => preserves_pureM stepRel_refl _)
          · intro _
            exact preserves_stepRel_callDeleteWorkspace c workspace.name

theorem preserves_stepRel_executeRemediation (c : Collab) (now id : String) :
    Preserves StepRel (executeRemediation c now id) := by
  unfold executeRemediation
  apply preserves_bindM stepRel_trans3 (preserves_stepRel_emitM _)
  intro _
  exact preserves_jsTry stepRel_trans3 (preserves_stepRel_execBody c now id)
    (fun e => preserves_stepRel_escalateOn now id _ e)

theorem preserves_stepRel_requestApprovalBody (c : Collab) (now id : String)
    (remediation : Remediation) (hypothesis : Hypothesis)
    (incidentState? : Option Obj) :
    Preserves StepRel (requestApprovalBody c now id remediation hypothesis incidentState?) := by
  unfold requestApprovalBody
  apply preserves_bindM stepRel_trans3 (preserves_stepRel_sSetPending now id _)
  intro _
  apply preserves_bindM stepRel_trans3 (preserves_stepRel_jsObjFieldM _ _)
  intro _
  apply preserves_bindM stepRel_trans3 (preserves_stepRel_jsObjFieldM _ _)
  intro _
  apply preserves_bindM stepRel_trans3 (preserves_stepRel_callSlackRequestApproval c id)
  intro result?
  exact preserves_bindM stepRel_trans3 (preserves_stepRel_sUpdateIncident now id _)
    (fun _ => preserves_pureM stepRel_refl _)

theorem preserves_stepRel_requestHumanApproval (c : Collab) (now id : String)
    (remediation : Remediation) (hypothesis : Hypothesis)
    (incidentState? : Option Obj) :
    Preserves StepRel (requestHumanApproval c now id remediation hypothesis incidentState?) := by
  unfold requestHumanApproval
  exact preserves_jsTry stepRel_trans3
    (preserves_stepRel_requestApprovalBody c now id remediation hypothesis incidentState?)
    (fun e => preserves_stepRel_escalateOn now id _ e)

theorem preserves_stepRel_synthesizeBody (cfg : OrchCfg) (c : Collab)
    (now id : String) (hypothesis : Hypothesis) (runbookContext : String)
    (incidentState? : Option Obj) :
    Preserves StepRel (synthesizeBody cfg c now id hypothesis runbookContext incidentState?) := by
  unfold synthesizeBody
  apply preserves_bindM stepRel_trans3 (preserves_stepRel_sTransition now id _ _)
  intro _
  apply preserves_bindM stepRel_trans3 (preserves_liftE stepRel_refl _)
  intro remediation?
  cases remediation? with
  | none =>
      exact preserves_bindM stepRel_trans3 (preserves_stepRel_sTransition now id _ _)
        (fun _ => preserves_pureM stepRel_refl _)
  | some remediation =>
      apply preserves_ite
      · exact preserves_bindM stepRel_trans3 (preserves_stepRel_sTransition now id _ _)
          (fun _ => preserves_pureM stepRel_refl _)
      apply preserves_bindM stepRel_trans3 (preserves_stepRel_sUpdateIncident now id _)
      intro _
      apply preserves_bindM stepRel_trans3 (preserves_stepRel_jsObjFieldM _ _)
      intro cms
      apply preserves_ite
      · exact preserves_stepRel_executeRemediation c now id
      · exact preserves_stepRel_requestHumanApproval c now id remediation hypothesis incidentState?

theorem preserves_stepRel_synthesizeRemediation (cfg : OrchCfg) (c : Collab)
    (now id : String) (hypothesis : Hypothesis) (runbookContext : String)
    (incidentState? : Option Obj) :
    Preserves StepRel (synthesizeRemediation cfg c now id hypothesis runbookContext incidentState?) := by
  unfold synthesizeRemediation
  exact preserves_jsTry stepRel_trans3
    (preserves_stepRel_synthesizeBody cfg c now id hypothesis runbookContext incidentState?)
    (fun e => preserves_stepRel_escalateOn now id _ e)

theorem preserves_stepRel_processHypothesisBody (cfg : OrchCfg) (c : Collab)
    (now id : String) (parsedHypothesis : Hypothesis) (query : String) :
    Preserves StepRel (processHypothesisBody cfg c now id parsedHypothesis query) := by
  unfold processHypothesisBody
  apply preserves_bindM stepRel_trans3 (preserves_liftE stepRel_refl _)
  intro redactedQuery
  apply preserves_bindM stepRel_trans3 (preserves_liftE stepRel_refl _)
  intro sanityResults
  apply preserves_bindM stepRel_trans3 (preserves_liftE stepRel_refl _)
  intro parallelResearch
  apply preserves_bindM stepRel_trans3 (preserves_stepRel_sTransition now id _ _)
  intro _
  apply preserves_bindM stepRel_trans3 (preserves_stepRel_sGetIncident id)
  intro incidentState?
  exact preserves_stepRel_synthesizeRemediation cfg c now id parsedHypothesis _ incidentState?

theorem preserves_stepRel_processHypothesis (cfg : OrchCfg) (c : Collab)
    (now id : String) (parsedHypothesis : Hypothesis) (query : String) :
    Preserves StepRel (processHypothesis cfg c now id parsedHypothesis query) := by
  unfold processHypothesis
  exact preserves_jsTry stepRel_trans3
    (preserves_stepRel_processHypothesisBody cfg c now id parsedHypothesis query)
    (fun e => preserves_stepRel_escalateOn now id _ e)

/-! `ApprovalsEq`-preservation: the execution/verification path never touches
pending-approval records. -/

theorem preserves_approvalsEq_escalateOn (now id : String) (extra : String → Obj)
    (e : String) : Preserves ApprovalsEq (escalateOn now id extra e) := by
  unfold escalateOn
  exact preserves_bindM approvalsEq_trans3 (preserves_approvalsEq_sTransition now id _ _)
    (fun _ => preserves_pureM approvalsEq_refl _)

theorem preserves_approvalsEq_callCreateWorkspace (c : Collab) :
    Preserves ApprovalsEq (callCreateWorkspace c) := by
  unfold callCreateWorkspace
  apply preserves_bindM approvalsEq_trans3 (preserves_liftE approvalsEq_refl _)
  intro w?
  cases w? with
  | some w =>
      exact preserves_bindM approvalsEq_trans3 (preserves_approvalsEq_emitM _)
        (fun _ => preserves_pureM approvalsEq_refl _)
  | none => exact preserves_pureM approvalsEq_refl _

theorem preserves_approvalsEq_callDeleteWorkspace (c : Collab) (name : String) :
    Preserves ApprovalsEq (callDeleteWorkspace c name) := by
  unfold callDeleteWorkspace
  exact preserves_bindM approvalsEq_trans3 (preserves_liftE approvalsEq_refl _)
    (fun _ => preserves_approvalsEq_emitM _)

theorem preserves_approvalsEq_callAddNote (c : Collab) (id : String) :
    Preserves ApprovalsEq (callAddNote c id) := by
  unfold callAddNote
  exact preserves_bindM approvalsEq_trans3 (preserves_liftE approvalsEq_refl _)
    (fun _ => preserves_approvalsEq_emitM _)

theorem preserves_approvalsEq_runPreFlightCheck (c : Collab) (st : Obj) :
    Preserves ApprovalsEq (runPreFlightCheck c st) := by
  unfold runPreFlightCheck
  exact preserves_ite _ (preserves_pureM approvalsEq_refl _) (preserves_liftE approvalsEq_refl _)

theorem preserves_approvalsEq_verifyBody (c : Collab) (now id : String) :
    Preserves ApprovalsEq (verifyBody c now id) := by
  unfold verifyBody
  apply preserves_bindM approvalsEq_trans3 (preserves_approvalsEq_sTransition now id _ _)
  intro _
  apply preserves_bindM approvalsEq_trans3 (preserves_approvalsEq_sGetIncident id)
  intro incidentState?
  apply preserves_bindM approvalsEq_trans3 (preserves_approvalsEq_jsObjFieldM _ _)
  intro healthUrl
  apply preserves_bindM approvalsEq_trans3
    (preserves_ite _ (preserves_liftE approvalsEq_refl _) (preserves_pureM approvalsEq_refl _))
  intro verification
  apply preserves_bindM approvalsEq_trans3 (preserves_approvalsEq_sUpdateIncident now id _)
  intro _
  apply preserves_ite
  · exact preserves_bindM approvalsEq_trans3 (preserves_approvalsEq_sTransition now id _ _)
      (fun _ => preserves_approvalsEq_callAddNote c id)
  · exact preserves_bindM approvalsEq_trans3 (preserves_approvalsEq_sTransition now id _ _)
      (fun _ => preserves_approvalsEq_callAddNote c id)

theorem preserves_approvalsEq_verifyRemediation (c : Collab) (now id : String) :
    Preserves ApprovalsEq (verifyRemediation c now id) := by
  unfold verifyRemediation
  exact preserves_jsTry approvalsEq_trans3 (preserves_approvalsEq_verifyBody c now id)
    (fun e => preserves_approvalsEq_escalateOn now id _ e)

theorem preserves_approvalsEq_execBody (c : Collab) (now id : String) :
    Preserves ApprovalsEq (execBody c now id) := by
  unfold execBody
  apply preserves_bindM approvalsEq_trans3 (preserves_approvalsEq_sGetIncident id)
  intro incidentState?
  cases incidentState? with
  | none => exact preserves_throwM approvalsEq_refl _
  | some incidentState =>
      apply preserves_ite
      · exact preserves_throwM approvalsEq_refl _
      apply preserves_bindM approvalsEq_trans3 (preserves_approvalsEq_sTransition now id _ _)
      intro _
      apply preserves_bindM approvalsEq_trans3 (preserves_approvalsEq_runPreFlightCheck c _)
      intro preFlightCheck
      apply preserves_ite
      · exact preserves_bindM approvalsEq_trans3 (preserves_approvalsEq_sTransition now id _ _)
          (fun _ => preserves_pureM approvalsEq_refl _)
      apply preserves_bindM approvalsEq_trans3 (preserves_approvalsEq_callCreateWorkspace c)
      intro workspace?
      cases workspace? with
      | none => exact preserves_throwM approvalsEq_refl _
      | some workspace =>
          apply preserves_bindM approvalsEq_trans3 (preserves_approvalsEq_sUpdateIncident now id _)
          intro _
          apply preserves_bindM approvalsEq_trans3 (preserves_liftE approvalsEq_refl _)
          intro ready
          apply preserves_ite
          · exact preserves_throwM approvalsEq_refl _
          apply preserves_bindM approvalsEq_trans3 (preserves_liftE approvalsEq_refl _)
          intro execResult
          apply preserves_bindM approvalsEq_trans3 (preserves_approvalsEq_sUpdateIncident now id _)
          intro _
          apply preserves_bindM approvalsEq_trans3
          · cases execResult with
            | some er =>
                apply preserves_ite
                · exact preserves_approvalsEq_verifyRemediation c now id
                · exact preserves_bindM approvalsEq_trans3
                    (preserves_approvalsEq_sTransition now id _ _)
                    (fun _ => preserves_pureM approvalsEq_refl _)
            | none =>
                exact preserves_bindM approvalsEq_trans3
                  (preserves_approvalsEq_sTransition now id _ _)
                  (fun _ => preserves_pureM approvalsEq_refl _)
          · intro _
            exact preserves_approvalsEq_callDeleteWorkspace c workspace.name

theorem preserves_approvalsEq_executeRemediation (c : Collab) (now id : String) :
    Preserves ApprovalsEq (executeRemediation c now id) := by
  unfold executeRemediation
  apply preserves_bindM approvalsEq_trans3 (preserves_approvalsEq_emitM _)
  intro _
  exact preserves_jsTry approvalsEq_trans3 (preserves_approvalsEq_execBody c now id)
    (fun e => preserves_approvalsEq_escalateOn now id _ e)

/-! No-escape lemmas: under `Live id`, the `catch` of each phase handler
always succeeds (the escalation write finds the record), so the handler as
a whole never throws. -/

theorem live_some {id : String} {s : OrchState} (h : Live id s) :
    ∃ cur, getIncidentState id s.store = some cur := by
  unfold Live at h
  cases hg : getIncidentState id s.store with
  | none => rw [hg] at h; simp at h
  | some cur => exact ⟨cur, rfl⟩

theorem sTransition_ok {id : String} {s : OrchState} (now stg : String)
    (extra : Obj) (h : Live id s) :
    ∃ d s', sTransition now id stg extra s = (.ok d, s') := by
  obtain ⟨cur, hcur⟩ := live_some h
  unfold sTransition transitionStage
  rw [hcur]
  exact ⟨_, _, rfl⟩

theorem escalateOn_ok {id : String} (now : String) (extra : String → Obj)
    (e : String) : ∀ s, Live id s → ((escalateOn now id extra e) s).1 = .ok () := by
  intro s h
  obtain ⟨d, s', hts⟩ := sTransition_ok now "ESCALATED" (extra e) h
  unfold escalateOn bindM
  rw [hts]
  rfl

theorem jsTry_ok {id : String} {body : M Unit} {handler : String → M Unit}
    (hbody : Preserves StepRel body)
    (hh : ∀ e s, Live id s → ((handler e) s).1 = .ok ()) :
    ∀ s, Live id s → ((jsTry body handler) s).1 = .ok () := by
  intro s h
  rcases hbs : body s with ⟨r, s'⟩
  cases r with
  | ok a => simp only [jsTry, hbs]
  | error e =>
      have hstep := hbody s
      rw [hbs] at hstep
      have h' : Live id s' := hstep.1 id h
      simp only [jsTry, hbs]
      exact hh e s' h'

theorem verifyRemediation_ok (c : Collab) (now id : String) :
    ∀ s, Live id s → ((verifyRemediation c now id) s).1 = .ok () := by
  unfold verifyRemediation
  exact jsTry_ok (preserves_stepRel_verifyBody c now id)
    (fun e => escalateOn_ok now _ e)

theorem executeRemediation_ok (c : Collab) (now id : String) :
    ∀ s, Live id s → ((executeRemediation c now id) s).1 = .ok () := by
  intro s h
  have h' : Live id { s with events := s.events ++ [Event.executeRemediationEntered id] } := h
  unfold executeRemediation bindM emitM
  exact jsTry_ok (preserves_stepRel_execBody c now id)
    (fun e => escalateOn_ok now _ e) _ h'

theorem requestHumanApproval_ok (c : Collab) (now id : String)
    (remediation : Remediation) (hypothesis : Hypothesis)
    (incidentState? : Option Obj) :
    ∀ s, Live id s →
      ((requestHumanApproval c now id remediation hypothesis incidentState?) s).1 = .ok () := by
  unfold requestHumanApproval
  exact jsTry_ok (preserves_stepRel_requestApprovalBody c now id remediation hypothesis incidentState?)
    (fun e => escalateOn_ok now _ e)

theorem synthesizeRemediation_ok (cfg : OrchCfg) (c : Collab) (now id : String)
    (hypothesis : Hypothesis) (runbookContext : String)
    (incidentState? : Option Obj) :
    ∀ s, Live id s →
      ((synthesizeRemediation cfg c now id hypothesis runbookContext incidentState?) s).1 = .ok () := by
  unfold synthesizeRemediation
  exact jsTry_ok (preserves_stepRel_synthesizeBody cfg c now id hypothesis runbookContext incidentState?)
    (fun e => escalateOn_ok now _ e)

theorem processHypothesis_ok (cfg : OrchCfg) (c : Collab) (now id : String)
    (parsedHypothesis : Hypothesis) (query : String) :
    ∀ s, Live id s →
      ((processHypothesis cfg c now id parsedHypothesis query) s).1 = .ok () := by
  unfold processHypothesis
  exact jsTry_ok (preserves_stepRel_processHypothesisBody cfg c now id parsedHypothesis query)
    (fun e => escalateOn_ok now _ e)

/-! ## Record-shape lemmas -/

/-- The persisted schema has no `stage_history` field: `setIncidentState`
rebuilds every record from its fixed field list, which omits it. -/
theorem mkIncidentData_no_stage_history (now id : String) (state : Obj) :
    (mkIncidentData now id state).get "stage_history" = none := rfl

theorem mkIncidentData_current_stage (now id : String) (state : Obj) :
    (mkIncidentData now id state).get "current_stage" =
      some (jor (state.jsGet "current_stage") (JValue.str "TRIGGERED")) := rfl

/-- The stage recorded for an incident, as a JS read
(`record.current_stage`). -/
def stageOf (id : String) (s : OrchState) : Option JValue :=
  (getIncidentState id s.store).map (fun r => r.jsGet "current_stage")

/-- The state object built in `transitionStage` carries the new stage. -/
theorem merged_stage_get (a : Obj) (stg : String) (h : JValue) :
    ((a.insert "current_stage" (JValue.str stg)).insert "stage_history" h).jsGet
      "current_stage" = JValue.str stg := by
  unfold Obj.jsGet
  rw [objGet_insert_ne _ _ _ _ (by decide), objGet_insert_self]
  rfl

/-- A successful `transitionStage` leaves the record's `current_stage` at the
new stage (for a truthy stage name). -/
theorem sTransition_sets_stage {id : String} {s : OrchState} (now stg : String)
    (extra : Obj) (h : Live id s) (hstg : (JValue.str stg).truthy = true) :
    ((sTransition now id stg extra) s).1.isOk = true ∧
      stageOf id ((sTransition now id stg extra) s).2 = some (JValue.str stg) := by
  obtain ⟨cur, hcur⟩ := live_some h
  unfold sTransition transitionStage
  rw [hcur]
  constructor
  · rfl
  · unfold stageOf getIncidentState setIncidentState
    rw [storeGet_insert_self, Option.map_some']
    have hjs : (mkIncidentData now id
        (((cur.spread extra).insert "current_stage" (JValue.str stg)).insert
          "stage_history"
          (jsPush (jor (cur.jsGet "stage_history") (JValue.arr []))
            (JValue.obj [("from", cur.jsGet "current_stage"),
                         ("to", JValue.str stg),
                         ("timestamp", JValue.str now)])))).jsGet "current_stage"
        = JValue.str stg := by
      unfold Obj.jsGet
      rw [mkIncidentData_current_stage, Option.getD_some, merged_stage_get]
      simp [jor, hstg]
    exact congrArg some hjs

/-- `escalateOn` leaves the record in `ESCALATED` (under liveness). -/
theorem escalateOn_sets_stage {id : String} (now : String) (extra : String → Obj)
    (e : String) : ∀ s, Live id s →
      stageOf id ((escalateOn now id extra e) s).2 = some (JValue.str "ESCALATED") := by
  intro s h
  obtain ⟨d, s', hts⟩ := sTransition_ok now "ESCALATED" (extra e) h
  have := (sTransition_sets_stage now "ESCALATED" (extra e) h (by decide)).2
  unfold escalateOn bindM
  rw [hts]
  rw [hts] at this
  exact this

/-! ## Event and pending-approval tracking -/

/-- Every observable event present before a `StepRel`-preserving computation
is still present after it. -/
theorem events_extend {α : Type} {m : M α} (hm : Preserves StepRel m)
    (s : OrchState) : ∃ tail, ((m s).2).events = s.events ++ tail :=
  (hm s).2

/-- `executeRemediation` always records its entry event. -/
theorem executeRemediation_entered (c : Collab) (now id : String) (s : OrchState) :
    ∃ tail, ((executeRemediation c now id) s).2.events =
      s.events ++ [Event.executeRemediationEntered id] ++ tail := by
  have hrest : Preserves StepRel
      (jsTry (execBody c now id)
        (escalateOn now id (fun e =>
          [("error", JValue.str e), ("error_stage", JValue.str "execution")]))) :=
    preserves_jsTry stepRel_trans3 (preserves_stepRel_execBody c now id)
      (fun e => preserves_stepRel_escalateOn now id _ e)
  obtain ⟨tail, ht⟩ := events_extend hrest
    { s with events := s.events ++ [Event.executeRemediationEntered id] }
  exact ⟨tail, by unfold executeRemediation bindM emitM; simpa using ht⟩

/-- Through a bind whose head establishes a fixed pending-approval value and
whose continuation never touches approvals, the value persists. -/
theorem bindM_pendingVal {α β : Type} {m : M α} {f : α → M β} {id : String}
    {v : Option Obj}
    (hm : ∀ s, getPendingApproval id ((m s).2).store = v)
    (hf : ∀ a, Preserves ApprovalsEq (f a)) :
    ∀ s, getPendingApproval id (((bindM m f) s).2).store = v := by
  intro s
  have h1 := hm s
  rcases hms : m s with ⟨r, s'⟩
  rw [hms] at h1
  cases r with
  | ok a =>
      have h2 := hf a s'
      simp only [bindM, hms]
      rw [h2 id]
      exact h1
  | error e =>
      simp only [bindM, hms]
      exact h1

/-- Same transport through `try`/`catch` whose handler never touches
approvals. -/
theorem jsTry_pendingVal {α : Type} {m : M α} {handler : String → M α}
    {id : String} {v : Option Obj}
    (hm : ∀ s, getPendingApproval id ((m s).2).store = v)
    (hh : ∀ e, Preserves ApprovalsEq (handler e)) :
    ∀ s, getPendingApproval id (((jsTry m handler) s).2).store = v := by
  intro s
  have h1 := hm s
  rcases hms : m s with ⟨r, s'⟩
  rw [hms] at h1
  cases r with
  | ok a =>
      simp only [jsTry, hms]
      exact h1
  | error e =>
      have h2 := hh e s'
      simp only [jsTry, hms]
      rw [h2 id]
      exact h1

theorem preserves_approvalsEq_callSlackRequestApproval (c : Collab) (id : String) :
    Preserves ApprovalsEq (callSlackRequestApproval c id) := by
  unfold callSlackRequestApproval
  apply preserves_bindM approvalsEq_trans3 (preserves_liftE approvalsEq_refl _)
  intro r
  exact preserves_bindM approvalsEq_trans3 (preserves_approvalsEq_emitM _)
    (fun _ => preserves_pureM approvalsEq_refl _)

/-- After `requestHumanApproval`, whatever happened downstream (Slack
success, Slack failure, state-update failure), the pending-approval record
holds the snapshot of **this** call. -/
theorem requestHumanApproval_pending (c : Collab) (now id : String)
    (remediation : Remediation) (hypothesis : Hypothesis)
    (incidentState? : Option Obj) :
    ∀ s, getPendingApproval id
        (((requestHumanApproval c now id remediation hypothesis incidentState?) s).2).store =
      some (Obj.insert
        [("remediation_code", remediation.code),
         ("hypothesis", hypothesis.hypothesis),
         ("risk", remediation.risk)] "requested_at" (JValue.str now)) := by
  unfold requestHumanApproval requestApprovalBody
  apply jsTry_pendingVal
  · apply bindM_pendingVal
    · intro s
      unfold sSetPending setPendingApproval getPendingApproval
      exact storeGet_insert_self _ _ _
    · intro _
      apply preserves_bindM approvalsEq_trans3 (preserves_approvalsEq_jsObjFieldM _ _)
      intro _
      apply preserves_bindM approvalsEq_trans3 (preserves_approvalsEq_jsObjFieldM _ _)
      intro _
      apply preserves_bindM approvalsEq_trans3 (preserves_approvalsEq_callSlackRequestApproval c id)
      intro result?
      exact preserves_bindM approvalsEq_trans3 (preserves_approvalsEq_sUpdateIncident now id _)
        (fun _ => preserves_pureM approvalsEq_refl _)
  · intro e
    exact preserves_approvalsEq_escalateOn now id _ e

/-! ## Claim theorems -/

/-- Concrete scenario for the update round trip: an incident created with a
title, then updated with a `remediation_risk` field. -/
def c1Store : Store :=
  (setIncidentState "T0" "I1" [("title", JValue.str "DB pool exhausted")] []).1

/-- The record read back after `update("I1", {remediation_risk: "HIGH"})`. -/
def c1After : Option Obj :=
  match updateIncidentState "T1" "I1" [("remediation_risk", JValue.str "HIGH")] c1Store with
  | .ok (st', _) => getIncidentState "I1" st'
  | .error _ => none

/-- C1: the claimed update/get round trip fails on the code.  After
`update(id, {remediation_risk: "HIGH"})` on an existing record, `get(id)`
returns a record with **no** `remediation_risk` field at all —
`setIncidentState` rebuilds the record from a fixed 16-field schema that
silently drops every other key of the merge — while previously-set
schema fields (`title`) survive and `updated_at` is refreshed. -/
theorem c1_update_not_round_trip :
    c1After.isSome = true ∧
    Option.bind c1After (fun r => r.get "remediation_risk") = none ∧
    Option.bind c1After (fun r => r.get "title") = some (JValue.str "DB pool exhausted") ∧
    Option.bind c1After (fun r => r.get "updated_at") = some (JValue.str "T1") :=
  ⟨rfl, rfl, rfl, rfl⟩

/-- An incident created fresh, then transitioned once. -/
def c2Store : Store := (setIncidentState "T0" "I1" [] []).1

/-- The record read back after `transitionStage("I1", "INVESTIGATING")`. -/
def c2After : Option Obj :=
  match transitionStage "T1" "I1" "INVESTIGATING" [] c2Store with
  | .ok (st', _) => getIncidentState "I1" st'
  | .error _ => none

/-- C2: `stage_history` is never persisted.  Universally, the record schema
written by `setIncidentState` has no `stage_history` field, so the history
entry built by `transitionStage` is discarded on save: after a successful
transition since creation the stored record has **no** `stage_history`
(instead of the claimed one appended entry), even though `current_stage`
did change. -/
theorem c2_stage_history_not_persisted :
    (∀ now id state, (mkIncidentData now id state).get "stage_history" = none) ∧
    c2After.isSome = true ∧
    Option.bind c2After (fun r => r.get "stage_history") = none ∧
    Option.bind c2After (fun r => r.get "current_stage") = some (JValue.str "INVESTIGATING") :=
  ⟨fun _ _ _ => rfl, rfl, rfl, rfl⟩

/-- C4: the confidence evaluator returns `false` whenever `risk == 'HIGH'`,
for every threshold configuration and every other input — both the base
`evaluateConfidence` and the enhanced variant for every edge-case list. -/
theorem c4_high_risk_never_auto :
    ∀ (cth : ℚ) (cmt : Option ℚ) (h c r : Option ℚ) (ecs : List String),
      evaluateConfidence cth cmt h c r (JValue.str "HIGH") = false ∧
      evaluateConfidenceEnhanced cth cmt h c r (JValue.str "HIGH") ecs = false := by
  intro cth cmt h c r ecs
  refine ⟨rfl, ?_⟩
  simp [evaluateConfidenceEnhanced, evaluateConfidence, jsEqStr]

/-- C5: whenever the edge-case list contains a tag from the critical set,
`evaluateConfidenceEnhanced` returns `false` — for every threshold
configuration, every scalar input, and every risk value. -/
theorem c5_critical_edge_case_blocks :
    ∀ (cth : ℚ) (cmt : Option ℚ) (h c r : Option ℚ) (risk : JValue)
      (ecs : List String),
      ecs.any (fun ec => criticalEdgeCases.contains ec) = true →
      evaluateConfidenceEnhanced cth cmt h c r risk ecs = false := by
  intro cth cmt h c r risk ecs hany
  unfold evaluateConfidenceEnhanced
  cases hb : evaluateConfidence cth cmt h c r risk with
  | false => simp [hb]
  | true =>
      simp only [hb]
      simpa using hany

/-- C5 witness: the theorem applied at a concrete all-thresholds-satisfied
input carrying the `data_sensitive` tag. -/
theorem c5_critical_edge_case_blocks_witness :
    evaluateConfidenceEnhanced 90 (some 70) (some 100) (some 100) (some 100)
      (JValue.str "LOW") ["data_sensitive"] = false :=
  c5_critical_edge_case_blocks 90 (some 70) (some 100) (some 100) (some 100)
    (JValue.str "LOW") ["data_sensitive"] (by decide)

/-- C6: the context-match gate does **not** use 85 under the default
configuration.  `config.confidence` defines `sensoMatchThreshold = 85` but
the orchestrator reads the nonexistent key `contextMatchThreshold`: the base
orchestrator falls back to the hard-coded 70, so a context score of 80
(below the claimed 85) still yields `true`; and the enhanced orchestrator
ends up with an `undefined` threshold, so even a context score of 0 passes
the gate. -/
theorem c6_context_threshold_not_85 :
    evaluateConfidence autoExecuteThreshold orchestratorContextMatchThreshold
      (some 95) (some 80) (some 90) (JValue.str "LOW") = true ∧
    orchestratorContextMatchThreshold = some 70 ∧
    sensoMatchThreshold = 85 ∧
    evaluateConfidence autoExecuteThreshold enhancedContextMatchThreshold
      (some 95) (some 0) (some 90) (JValue.str "LOW") = true := by
  refine ⟨by decide, rfl, rfl, by decide⟩

/-- C10: the enhanced confidence evaluator refines the base one — with the
same instance thresholds, whenever the enhanced evaluator returns `true` the
base one does too, and on an empty edge-case list they agree on every
input. -/
theorem c10_enhanced_refines_base :
    ∀ (cth : ℚ) (cmt : Option ℚ) (h c r : Option ℚ) (risk : JValue)
      (ecs : List String),
      (evaluateConfidenceEnhanced cth cmt h c r risk ecs = true →
        evaluateConfidence cth cmt h c r risk = true) ∧
      evaluateConfidenceEnhanced cth cmt h c r risk [] =
        evaluateConfidence cth cmt h c r risk := by
  intro cth cmt h c r risk ecs
  constructor
  · intro he
    cases hb : evaluateConfidence cth cmt h c r risk with
    | true => rfl
    | false =>
        unfold evaluateConfidenceEnhanced at he
        rw [hb] at he
        simp at he
  · unfold evaluateConfidenceEnhanced
    cases hb : evaluateConfidence cth cmt h c r risk <;> simp [hb]

/-- C10 witness: the refinement direction applied at a concrete input whose
edge-case list is nonempty but noncritical. -/
theorem c10_enhanced_refines_base_witness :
    evaluateConfidence 90 (some 70) (some 95) (some 95) (some 95)
      (JValue.str "LOW") = true :=
  (c10_enhanced_refines_base 90 (some 70) (some 95) (some 95) (some 95)
    (JValue.str "LOW") ["low_confidence"]).1 (by decide)

/-! ## Concrete scenarios for the approval and execution claims -/

/-- A behaviour oracle where every collaborator succeeds. -/
def okCollab : Collab :=
  { redact := .ok "q",
    sanitySearch := .ok { results := JValue.arr [], maxScore := 9/10 },
    parallelResearch := .ok JValue.null,
    formatForPrompt := fun _ => "",
    jsonStringifyResearch := fun _ => "",
    generateRemediation := .ok none,
    slackRequestApproval := .ok (some (JValue.obj [("messageTs", JValue.str "123.45")])),
    createWorkspace := .ok (some { workspaceId := JValue.str "ws-1", name := "w-1" }),
    waitForWorkspace := .ok true,
    executeInWorkspace := .ok (some { exitCode := JValue.num 0, stdout := JValue.str "", stderr := JValue.str "" }),
    deleteWorkspace := .ok (),
    healthCheckPre := .ok JValue.null,
    healthCheckVerify := .ok (JValue.obj [("success", JValue.b true)]),
    pagerdutyAddNote := .ok () }

def c3Remediation : Remediation :=
  { code := JValue.str "restart()", reproductionCode := JValue.null,
    language := JValue.null, reasoning := JValue.str "r",
    risk := JValue.str "MEDIUM", confidence := some 80,
    requiresApproval := false }

def c3Hypothesis : Hypothesis :=
  { hypothesis := JValue.str "pool leak", confidence := some 92 }

def c3Store0 : Store :=
  (setIncidentState "T0" "I1" [("title", JValue.str "x")] []).1

/-- A pending approval already in flight for `I1` (first request, at `T1`). -/
def c3StoreWithPending : Store :=
  setPendingApproval "T1" "I1"
    [("remediation_code", JValue.str "old fix"),
     ("hypothesis", JValue.str "old hyp"),
     ("risk", JValue.str "LOW")] c3Store0

/-- A second approval request for `I1` while the first is unresolved. -/
def c3Run : Except String Unit × OrchState :=
  requestHumanApproval okCollab "T2" "I1" c3Remediation c3Hypothesis
    (getIncidentState "I1" c3StoreWithPending)
    { store := c3StoreWithPending, events := [] }

/-- C3 counterexample: with a pending approval already stored for `I1`, a
second `requestHumanApproval` does **not** raise — it returns successfully
and the pending record now holds the *new* snapshot (`restart()`/`MEDIUM`,
requested at `T2`) in place of the old one (`old fix`/`LOW`, `T1`). -/
theorem c3_second_request_no_error :
    c3Run.1 = .ok () ∧
    Option.bind (getPendingApproval "I1" c3StoreWithPending)
      (fun o => o.get "remediation_code") = some (JValue.str "old fix") ∧
    getPendingApproval "I1" c3Run.2.store =
      some [("remediation_code", JValue.str "restart()"),
            ("hypothesis", JValue.str "pool leak"),
            ("risk", JValue.str "MEDIUM"),
            ("requested_at", JValue.str "T2")] :=
  ⟨rfl, rfl, rfl⟩

/-- C3 as amended: pending approvals are keyed by incident id, so at most one
exists per incident — but not because a second request fails: for every
collaborator behaviour and every state in which the incident record exists,
`requestHumanApproval` returns without error and (re)writes the pending
record to this call's snapshot, overwriting any in-flight one. -/
theorem c3_amended_overwrite :
    ∀ (c : Collab) (now id : String) (rem : Remediation) (hyp : Hypothesis)
      (inc? : Option Obj) (s : OrchState), Live id s →
      ((requestHumanApproval c now id rem hyp inc?) s).1 = .ok () ∧
      getPendingApproval id
          (((requestHumanApproval c now id rem hyp inc?) s).2).store =
        some (Obj.insert
          [("remediation_code", rem.code),
           ("hypothesis", hyp.hypothesis),
           ("risk", rem.risk)] "requested_at" (JValue.str now)) := by
  intro c now id rem hyp inc? s h
  exact ⟨requestHumanApproval_ok c now id rem hyp inc? s h,
         requestHumanApproval_pending c now id rem hyp inc? s⟩

/-- C3 amended witness: the theorem applied at a concrete state (incident
`I1` exists, a pending approval is already in flight). -/
theorem c3_amended_overwrite_witness :
    ((requestHumanApproval okCollab "T2" "I1" c3Remediation c3Hypothesis none)
      { store := c3StoreWithPending, events := [] }).1 = .ok () :=
  (c3_amended_overwrite okCollab "T2" "I1" c3Remediation c3Hypothesis none
    { store := c3StoreWithPending, events := [] } (by unfold Live; rfl)).1

/-! ## C8: sandbox teardown -/

/-- Collaborators for the failing-execution scenario: the sandbox is created
and becomes ready, then `executeInWorkspace` rejects. -/
def c8Collab : Collab := { okCollab with executeInWorkspace := .error "sandbox crashed" }

def c8Store : Store :=
  (setIncidentState "T0" "I1" [("remediation_code", JValue.str "fix()")] []).1

def c8Run : Except String Unit × OrchState :=
  executeRemediation c8Collab "T1" "I1" { store := c8Store, events := [] }

/-- C8: on the exception exit path of `executeRemediation` a created sandbox
is **not** torn down.  With `executeInWorkspace` throwing after the
workspace was created, the handler catches, escalates and returns — the
event trace shows the workspace creation and no deletion. -/
theorem c8_workspace_leaked_on_exception :
    c8Run.1 = .ok () ∧
    c8Run.2.events = [Event.executeRemediationEntered "I1",
                      Event.workspaceCreated "w-1"] ∧
    stageOf "I1" c8Run.2 = some (JValue.str "ESCALATED") :=
  ⟨rfl, rfl, rfl⟩

/-! ## C9: approval resolution -/

/-- Incident exists, but **no** pending approval. -/
def c9Store : Store := (setIncidentState "T0" "I1" [("title", JValue.str "x")] []).1

def c9Run : Except String Unit × OrchState :=
  handleApproval okCollab "T1" "I1" "alice" true { store := c9Store, events := [] }

/-- C9 counterexample: with no pending approval for `I1`, `handleApproval`
does not fail with `NotFound` — it returns successfully having done nothing
(state and event trace unchanged). -/
theorem c9_missing_approval_no_error :
    c9Run.1 = .ok () ∧ c9Run.2.store = c9Store ∧ c9Run.2.events = [] :=
  ⟨rfl, rfl, rfl⟩

/-! ## C7: exception propagation -/

/-- Collaborators for the escaped-exception scenario: PII redaction rejects. -/
def c7Collab : Collab := { okCollab with redact := .error "Skyflow unreachable" }

/-- `processHypothesis` run against an **empty** store (no incident record). -/
def c7Run : Except String Unit × OrchState :=
  processHypothesis defaultOrchCfg c7Collab "T0" "I1" c3Hypothesis "query"
    { store := [], events := [] }

/-- C7 counterexample: an exception *does* escape a phase handler.  When the
incident record does not exist, a collaborator failure is caught, but the
`catch` block's own `transitionStage` write throws (`Incident I1 not
found`) and that exception propagates to the caller. -/
theorem c7_exception_escapes_when_record_missing :
    c7Run.1 = .error "Incident I1 not found" := rfl

/-! Behaviour of `handleApproval` in its three cases. -/

theorem handleApproval_none (c : Collab) (now id approver : String)
    (approved : Bool) :
    ∀ s, getPendingApproval id s.store = none →
      handleApproval c now id approver approved s = (.ok (), s) := by
  intro s hnone
  simp only [handleApproval, bindM, sGetPending, hnone]
  rfl

theorem handleApproval_approved (c : Collab) (now id approver : String) :
    ∀ s, Live id s → (getPendingApproval id s.store).isSome = true →
      (handleApproval c now id approver true s).1 = .ok () ∧
      getPendingApproval id (handleApproval c now id approver true s).2.store = none ∧
      (∃ tail, (handleApproval c now id approver true s).2.events =
        s.events ++ [Event.executeRemediationEntered id] ++ tail) := by
  intro s h hsome
  obtain ⟨p, hp⟩ := Option.isSome_iff_exists.mp hsome
  have hlive1 : Live id { s with store := clearPendingApproval id s.store } :=
    live_erase_approval h
  obtain ⟨cur, hcur⟩ := live_some hlive1
  have hred : handleApproval c now id approver true s =
      executeRemediation c now id
        { s with store := ((clearPendingApproval id s.store).insert (.incident id)
            (mkIncidentData now id (cur.spread
              [("human_approved", JValue.b true),
               ("approved_by", JValue.str approver),
               ("approved_at", JValue.str now)]))) } := by
    simp only [handleApproval, bindM, sGetPending, hp, sClearPending, if_pos,
      sUpdateIncident, updateIncidentState, setIncidentState]
    rw [hcur]
  have hlive2 : Live id { s with store := ((clearPendingApproval id s.store).insert
      (.incident id) (mkIncidentData now id (cur.spread
        [("human_approved", JValue.b true),
         ("approved_by", JValue.str approver),
         ("approved_at", JValue.str now)]))) } :=
    live_insert_incident hlive1
  have hpend2 : getPendingApproval id ((clearPendingApproval id s.store).insert
      (.incident id) (mkIncidentData now id (cur.spread
        [("human_approved", JValue.b true),
         ("approved_by", JValue.str approver),
         ("approved_at", JValue.str now)]))) = none := by
    unfold getPendingApproval clearPendingApproval
    rw [storeGet_insert_ne _ _ _ _ (by simp), storeGet_erase_self]
  refine ⟨?_, ?_, ?_⟩
  · rw [hred]
    exact executeRemediation_ok c now id _ hlive2
  · rw [hred]
    have happ := preserves_approvalsEq_executeRemediation c now id
      { s with store := ((clearPendingApproval id s.store).insert (.incident id)
          (mkIncidentData now id (cur.spread
            [("human_approved", JValue.b true),
             ("approved_by", JValue.str approver),
             ("approved_at", JValue.str now)]))) }
    rw [happ id]
    exact hpend2
  · rw [hred]
    exact executeRemediation_entered c now id _

theorem handleApproval_rejected (c : Collab) (now id approver : String) :
    ∀ s, Live id s → (getPendingApproval id s.store).isSome = true →
      (handleApproval c now id approver false s).1 = .ok () ∧
      getPendingApproval id (handleApproval c now id approver false s).2.store = none ∧
      stageOf id (handleApproval c now id approver false s).2 =
        some (JValue.str "ESCALATED") := by
  intro s h hsome
  obtain ⟨p, hp⟩ := Option.isSome_iff_exists.mp hsome
  have hlive1 : Live id { s with store := clearPendingApproval id s.store } :=
    live_erase_approval h
  have hpend1 : getPendingApproval id
      ({ s with store := clearPendingApproval id s.store } : OrchState).store = none := by
    unfold getPendingApproval clearPendingApproval
    exact storeGet_erase_self _ _
  have hred : handleApproval c now id approver false s =
      (bindM (sTransition now id "ESCALATED"
        [("human_rejected", JValue.b true),
         ("rejected_by", JValue.str approver),
         ("rejected_at", JValue.str now)]) (fun _ => pureM ()))
        { s with store := clearPendingApproval id s.store } := by
    simp only [handleApproval, bindM, sGetPending, hp, sClearPending]
    rfl
  obtain ⟨d, s', hts⟩ := sTransition_ok now "ESCALATED"
    [("human_rejected", JValue.b true),
     ("rejected_by", JValue.str approver),
     ("rejected_at", JValue.str now)] hlive1
  have hstage := (sTransition_sets_stage now "ESCALATED"
    [("human_rejected", JValue.b true),
     ("rejected_by", JValue.str approver),
     ("rejected_at", JValue.str now)] hlive1 (by decide)).2
  have happ := preserves_approvalsEq_sTransition now id "ESCALATED"
    [("human_rejected", JValue.b true),
     ("rejected_by", JValue.str approver),
     ("rejected_at", JValue.str now)]
    { s with store := clearPendingApproval id s.store }
  refine ⟨?_, ?_, ?_⟩
  · rw [hred]
    simp only [bindM, hts]
    rfl
  · rw [hred]
    simp only [bindM, hts]
    have : getPendingApproval id s'.store = none := by
      rw [hts] at happ
      rw [happ id]
      exact hpend1
    simpa [pureM] using this
  · rw [hred]
    simp only [bindM, hts]
    rw [hts] at hstage
    simpa [pureM] using hstage

/-- C9 as amended: `handleApproval` (the `resolveApproval` of the spec)
returns without error and without action when no pending approval exists
(instead of failing with `NotFound`); when one exists it clears the pending
record and, if approved, invokes `executeRemediation(id)` (the
`human_approved`/`approved_by`/`approved_at` fields are submitted to the
store but dropped by its fixed record schema), while if rejected it
transitions the incident to `ESCALATED` (the `human_rejected`/... fields
likewise dropped). -/
theorem c9_amended_resolution_behavior :
    ∀ (c : Collab) (now id approver : String) (s : OrchState), Live id s →
      (getPendingApproval id s.store = none →
        ∀ approved, handleApproval c now id approver approved s = (.ok (), s)) ∧
      ((getPendingApproval id s.store).isSome = true →
        ((handleApproval c now id approver true s).1 = .ok () ∧
         getPendingApproval id (handleApproval c now id approver true s).2.store = none ∧
         (∃ tail, (handleApproval c now id approver true s).2.events =
           s.events ++ [Event.executeRemediationEntered id] ++ tail)) ∧
        ((handleApproval c now id approver false s).1 = .ok () ∧
         getPendingApproval id (handleApproval c now id approver false s).2.store = none ∧
         stageOf id (handleApproval c now id approver false s).2 =
           some (JValue.str "ESCALATED"))) := by
  intro c now id approver s h
  constructor
  · intro hnone approved
    exact handleApproval_none c now id approver approved s hnone
  · intro hsome
    exact ⟨handleApproval_approved c now id approver s h hsome,
           handleApproval_rejected c now id approver s h hsome⟩

/-- C9 amended witness: the no-pending case at a concrete state (the theorem
applied at `c9Store`, where incident `I1` exists and no approval is
pending). -/
theorem c9_amended_resolution_behavior_witness :
    handleApproval okCollab "T1" "I1" "alice" true
      { store := c9Store, events := [] } =
      (.ok (), { store := c9Store, events := [] }) :=
  (c9_amended_resolution_behavior okCollab "T1" "I1" "alice"
    { store := c9Store, events := [] } (by unfold Live; rfl)).1 rfl true

/-- C7 as amended: provided the incident record exists, no exception ever
escapes a phase handler — for **every** collaborator behaviour, each of
`processHypothesis`, `synthesizeRemediation`, `executeRemediation`,
`verifyRemediation` (and the approval request) returns without throwing;
collaborator failures are converted by the `catch` blocks into an
`ESCALATED` transition (shown for the representative context-retrieval
failure; the `error`/`error_stage` details passed to the transition are
then dropped from the persisted record by the store's fixed schema).  When
the record is absent the escalation write itself throws and the exception
escapes (see the counterexample). -/
theorem c7_amended_no_escape :
    ∀ (cfg : OrchCfg) (c : Collab) (now id : String) (hyp : Hypothesis)
      (query ctx : String) (inc? : Option Obj) (rem : Remediation)
      (s : OrchState), Live id s →
      ((processHypothesis cfg c now id hyp query) s).1 = .ok () ∧
      ((synthesizeRemediation cfg c now id hyp ctx inc?) s).1 = .ok () ∧
      ((executeRemediation c now id) s).1 = .ok () ∧
      ((verifyRemediation c now id) s).1 = .ok () ∧
      ((requestHumanApproval c now id rem hyp inc?) s).1 = .ok () ∧
      (∀ e, c.redact = .error e →
        stageOf id ((processHypothesis cfg c now id hyp query) s).2 =
          some (JValue.str "ESCALATED")) := by
  intro cfg c now id hyp query ctx inc? rem s h
  refine ⟨processHypothesis_ok cfg c now id hyp query s h,
          synthesizeRemediation_ok cfg c now id hyp ctx inc? s h,
          executeRemediation_ok c now id s h,
          verifyRemediation_ok c now id s h,
          requestHumanApproval_ok c now id rem hyp inc? s h, ?_⟩
  intro e hred
  have hbody : (processHypothesisBody cfg c now id hyp query) s = (.error e, s) := by
    simp only [processHypothesisBody, bindM, liftE, hred]
  unfold processHypothesis jsTry
  rw [hbody]
  exact escalateOn_sets_stage now _ e s h

/-- C7 amended witness: the theorem applied at a concrete live state — all
four phase handlers return `.ok ()` there. -/
theorem c7_amended_no_escape_witness :
    ((processHypothesis defaultOrchCfg c7Collab "T1" "I1" c3Hypothesis "q")
      { store := c2Store, events := [] }).1 = .ok () ∧
    ((verifyRemediation c7Collab "T1" "I1")
      { store := c2Store, events := [] }).1 = .ok () :=
  ⟨(c7_amended_no_escape defaultOrchCfg c7Collab "T1" "I1" c3Hypothesis "q" "ctx"
      none c3Remediation { store := c2Store, events := [] } (by unfold Live; rfl)).1,
   (c7_amended_no_escape defaultOrchCfg c7Collab "T1" "I1" c3Hypothesis "q" "ctx"
      none c3Remediation { store := c2Store, events := [] } (by unfold Live; rfl)).2.2.2.1⟩
